import Mathlib

/-!
Shallow embedding of the agent runtime in src/src/templates/ai-agent/agent.template.py:
the message model, the safety gate seam, the memory recorder, the tool registry,
the error responder, the dispatch pipeline (BaseAgent.process_message), the queue
loop step (BaseAgent._process_messages) and the lifecycle controller
(BaseAgent.start / BaseAgent.stop), together with the concrete request handler of
SpecializedAgent. Python exceptions are modelled as Except String carrying the
result of str(e), since the source only ever consumes exceptions through str(e).
Mutable per-agent state (the memory log, the inbound queue, and an instrumentation
trail of executed tools) is threaded explicitly; datetime.now() is modelled by an
explicit clock argument called now.
-/

namespace AgentTemplate

/-- MessageType enum of the source: request, response, error, notification. -/
inductive MessageType where
  | request
  | response
  | error
  | notification
deriving DecidableEq, Repr

/-- Priority enum of the source: LOW, MEDIUM, HIGH, CRITICAL. -/
inductive Priority where
  | low
  | medium
  | high
  | critical
deriving DecidableEq, Repr

/-- Python values appearing in message content dicts in the source: strings,
None, and nested string-keyed dicts (the only shapes the template constructs
or inspects). -/
inductive Value where
  | vStr (s : String)
  | vNone
  | vDict (kvs : List (String × Value))

/-- AgentMessage dataclass. The timestamp field (default_factory datetime.now)
is the clock reading at construction; correlation_id is an opaque string. -/
structure AgentMessage where
  sender_id : String
  receiver_id : String
  message_type : MessageType
  content : List (String × Value)
  timestamp : Nat
  correlation_id : String
  priority : Priority

mutual

/-- Python repr of a Value: repr of a string wraps it in single quotes, repr of
None is the text None, repr of a dict lists quoted keys and value reprs. -/
def pyRepr : Value → String
  | Value.vStr s => "\x27" ++ s ++ "\x27"
  | Value.vNone => "None"
  | Value.vDict kvs => "\x7b" ++ pyReprEntries kvs ++ "\x7d"

/-- Comma-separated entries of a Python dict repr. -/
def pyReprEntries : List (String × Value) → String
  | [] => ""
  | [kv] => "\x27" ++ kv.1 ++ "\x27: " ++ pyRepr kv.2
  | kv :: rest => "\x27" ++ kv.1 ++ "\x27: " ++ pyRepr kv.2 ++ ", " ++ pyReprEntries rest

end

/-- Python str of a Value: str of a string is the string itself, anything else
falls back to repr (str(None) is None, str of a dict is its repr). -/
def pyStr : Value → String
  | Value.vStr s => s
  | v => pyRepr v

/-- Python str of a content dict, as used by str(message.content) when the
pipeline records content in memory. -/
def pyStrDict (kvs : List (String × Value)) : String :=
  pyRepr (Value.vDict kvs)

/-- Python dict.get with default None, as in message.content.get with one
argument in SpecializedAgent. -/
def dictGet (kvs : List (String × Value)) (k : String) : Value :=
  match kvs.find? (fun kv => kv.1 == k) with
  | some kv => kv.2
  | none => Value.vNone

/-- Python equality between a content value and a string literal, as in the
comparisons request_type == "analyze" of the source: only a string value equal
to the literal compares true; None and dicts compare false. -/
def valueEqStr : Value → String → Bool
  | Value.vStr s, t => s == t
  | _, _ => false

/-- A tool of the registry: langchain Tool with a synchronous run and an
optional asynchronous arun; invocation returns a value or raises (Except).
Tools are external collaborators and do not touch agent state. -/
structure Tool where
  name : String
  run : List (String × Value) → Except String Value
  arun : Option (List (String × Value) → Except String Value)

/-- Overwrite-or-append insertion into the name-keyed registry, matching the
semantics of the Python dict comprehension in _init_tools, where a later tool
with the same name overwrites an earlier one. -/
def dictInsertTool (d : List (String × Tool)) (k : String) (t : Tool) : List (String × Tool) :=
  if d.any (fun kv => kv.1 == k) then
    d.map (fun kv => if kv.1 == k then (k, t) else kv)
  else
    d ++ [(k, t)]

/-- BaseAgent._init_tools: build the name-keyed registry from the config tool list. -/
def init_tools (ts : List Tool) : List (String × Tool) :=
  List.foldl (fun d t => dictInsertTool d t.name t) [] ts

/-- Registry lookup, the semantics of self.tools[name] and of the membership
test name in self.tools. -/
def lookupTool (d : List (String × Tool)) (k : String) : Option Tool :=
  (d.find? (fun kv => kv.1 == k)).map (fun kv => kv.2)

/-- SafetyWrapper capability seam: validate_input and validate_output. The
rules dict of the source (max_output_length, forbidden_patterns,
require_human_approval, rate_limit) is configuration surface that the
validation methods of the template never consult, so it is omitted here. -/
structure SafetyWrapper where
  validate_input : AgentMessage → Bool
  validate_output : AgentMessage → Bool

/-- The SafetyWrapper implementation of the source: both checks always return
True. -/
def defaultSafetyWrapper : SafetyWrapper :=
  { validate_input := fun _ => true, validate_output := fun _ => true }

/-- AgentConfig dataclass, restricted to the fields the core runtime reads.
The generation tunables model_name, temperature and max_tokens are stored but
never consulted by the runtime, so they are omitted. -/
structure AgentConfig where
  agent_id : String
  name : String
  description : String
  tools : List Tool
  safety_enabled : Bool
  memory_enabled : Bool
  max_retries : Nat

/-- The per-instance collaborators a BaseAgent owns after construction:
its id, whether a memory recorder was constructed, its safety wrapper (None
when safety is disabled), and its tool registry. -/
structure Agent where
  agent_id : String
  memory_enabled : Bool
  safety_wrapper : Option SafetyWrapper
  tools : List (String × Tool)

/-- BaseAgent.__init__: memory iff memory_enabled, the default (permissive)
SafetyWrapper iff safety_enabled, registry built from the config tool list. -/
def mkAgent (cfg : AgentConfig) : Agent :=
  { agent_id := cfg.agent_id
  , memory_enabled := cfg.memory_enabled
  , safety_wrapper := if cfg.safety_enabled then some defaultSafetyWrapper else none
  , tools := init_tools cfg.tools }

/-- One record of the ConversationBufferMemory chat log: a HumanMessage or an
AIMessage whose content is the str of the recorded content dict. -/
inductive ChatEntry where
  | human (content : String)
  | ai (content : String)
deriving DecidableEq, Repr

/-- Mutable state of one agent instance: the memory chat log, the inbound FIFO
queue, and an instrumentation trail recording the name of every tool whose
underlying run or arun was actually executed (used to state that no tool runs
on a path; the source only touches it inside use_tool). -/
structure AgentState where
  memory_log : List ChatEntry
  queue : List AgentMessage
  tool_calls : List String

/-- BaseAgent._create_error_response: an ERROR message from the agent back to
the sender of the original message, content a dict with keys error and
original_message_id, correlation_id copied from the original; timestamp and
priority come from the dataclass defaults (clock reading, MEDIUM). -/
def create_error_response (agent_id : String) (original : AgentMessage) (error : String)
    (now : Nat) : AgentMessage :=
  { sender_id := agent_id
  , receiver_id := original.sender_id
  , message_type := MessageType.error
  , content := [("error", Value.vStr error), ("original_message_id", Value.vStr original.correlation_id)]
  , timestamp := now
  , correlation_id := original.correlation_id
  , priority := Priority.medium }

/-- BaseAgent.use_tool: raise ValueError with text Tool name not found when the
name is not registered; otherwise execute arun when present, else run, recording
the execution on the instrumentation trail; a tool failure propagates unchanged. -/
def use_tool (a : Agent) (tool_name : String) (kwargs : List (String × Value))
    (s : AgentState) : Except String Value × AgentState :=
  match lookupTool a.tools tool_name with
  | none => (Except.error ("Tool " ++ tool_name ++ " not found"), s)
  | some tool =>
    let s1 : AgentState := { s with tool_calls := s.tool_calls ++ [tool_name] }
    match (match tool.arun with | some f => f kwargs | none => tool.run kwargs) with
    | Except.ok result => (Except.ok result, s1)
    | Except.error e => (Except.error e, s1)

/-- BaseAgent._handle_request: raise NotImplementedError; the str of a bare
NotImplementedError is the empty string, which is what the except branch of
process_message later consumes via str(e). -/
def base_handle_request (m : AgentMessage) (s : AgentState) :
    Except String AgentMessage × AgentState :=
  (Except.error "", s)

/-- SpecializedAgent._analyze_data: always the dict with analysis completed and
empty results. -/
def analyze_data (data : Value) : List (String × Value) :=
  [("analysis", Value.vStr "completed"), ("results", Value.vDict [])]

/-- SpecializedAgent._perform_search: when a search tool is registered, invoke
it with the query keyword and wrap its result under search_results (a tool
failure propagates); otherwise the dict with error Search tool not available. -/
def perform_search (a : Agent) (query : Value) (s : AgentState) :
    Except String (List (String × Value)) × AgentState :=
  if (lookupTool a.tools "search").isSome then
    match use_tool a "search" [("query", query)] s with
    | (Except.ok results, s1) => (Except.ok [("search_results", results)], s1)
    | (Except.error e, s1) => (Except.error e, s1)
  else
    (Except.ok [("error", Value.vStr "Search tool not available")], s)

/-- The branch of SpecializedAgent._handle_request computing the result content
dict from content.get of the key type: analyze, search, or the unknown request
type error dict rendered with an f-string. -/
def specialized_request_result (a : Agent) (m : AgentMessage) (s : AgentState) :
    Except String (List (String × Value)) × AgentState :=
  let request_type := dictGet m.content "type"
  if valueEqStr request_type "analyze" then
    (Except.ok (analyze_data (dictGet m.content "data")), s)
  else if valueEqStr request_type "search" then
    perform_search a (dictGet m.content "query") s
  else
    (Except.ok [("error", Value.vStr ("Unknown request type: " ++ pyStr request_type))], s)

/-- SpecializedAgent._handle_request: compute the result dict, then construct a
RESPONSE message back to the sender carrying the original correlation_id, with
the dataclass defaults for timestamp (clock reading) and priority (MEDIUM). -/
def specialized_handle_request (a : Agent) (now : Nat) (m : AgentMessage) (s : AgentState) :
    Except String AgentMessage × AgentState :=
  match specialized_request_result a m s with
  | (Except.ok result, s1) =>
    (Except.ok
      { sender_id := a.agent_id
      , receiver_id := m.sender_id
      , message_type := MessageType.response
      , content := result
      , timestamp := now
      , correlation_id := m.correlation_id
      , priority := Priority.medium }, s1)
  | (Except.error e, s1) => (Except.error e, s1)

/-- Step 1 of process_message: when a safety wrapper is present and
validate_input rejects, raise ValueError with text Message failed safety
validation. -/
def validate_input_step (a : Agent) (m : AgentMessage) (s : AgentState) :
    Except String Unit × AgentState :=
  match a.safety_wrapper with
  | some w =>
    if w.validate_input m then (Except.ok (), s)
    else (Except.error "Message failed safety validation", s)
  | none => (Except.ok (), s)

/-- Step 2 of process_message: when memory is enabled, append a HumanMessage
holding str of the incoming content. -/
def record_input_step (a : Agent) (m : AgentMessage) (s : AgentState) : AgentState :=
  if a.memory_enabled then
    { s with memory_log := s.memory_log ++ [ChatEntry.human (pyStrDict m.content)] }
  else s

/-- Step 3 of process_message: branch on the message type. REQUEST goes to the
request handler (whose failure propagates), NOTIFICATION goes to the default
_handle_notification which logs and returns None, and RESPONSE or ERROR
produce no response. -/
def dispatch_step (handler : AgentMessage → AgentState → Except String AgentMessage × AgentState)
    (m : AgentMessage) (s : AgentState) :
    Except String (Option AgentMessage) × AgentState :=
  match m.message_type with
  | MessageType.request =>
    match handler m s with
    | (Except.ok r, s1) => (Except.ok (some r), s1)
    | (Except.error e, s1) => (Except.error e, s1)
  | MessageType.notification => (Except.ok none, s)
  | MessageType.response => (Except.ok none, s)
  | MessageType.error => (Except.ok none, s)

/-- Step 4 of process_message: when a response exists and a safety wrapper is
present and validate_output rejects, raise ValueError with text Response failed
safety validation. -/
def validate_output_step (a : Agent) (resp : Option AgentMessage) (s : AgentState) :
    Except String Unit × AgentState :=
  match resp, a.safety_wrapper with
  | some r, some w =>
    if w.validate_output r then (Except.ok (), s)
    else (Except.error "Response failed safety validation", s)
  | _, _ => (Except.ok (), s)

/-- Step 5 of process_message: when a response exists and memory is enabled,
append an AIMessage holding str of the response content. -/
def record_output_step (a : Agent) (resp : Option AgentMessage) (s : AgentState) : AgentState :=
  match resp with
  | some r =>
    if a.memory_enabled then
      { s with memory_log := s.memory_log ++ [ChatEntry.ai (pyStrDict r.content)] }
    else s
  | none => s

/-- Sequencing of pipeline steps under exceptions: a failing step
short-circuits the remaining statements and keeps the state it left behind,
a successful step passes its value and state on, exactly as statement
sequencing inside a Python try-block does. -/
def stepBind {α β : Type} (x : Except String α × AgentState)
    (f : α → AgentState → Except String β × AgentState) :
    Except String β × AgentState :=
  match x with
  | (Except.ok v, s) => f v s
  | (Except.error e, s) => (Except.error e, s)

/-- The try-block of BaseAgent.process_message: validate input, record input,
dispatch on type, validate output, record output, return the optional
response. An error anywhere aborts the remaining steps but keeps the state
mutations already performed, as Python exceptions do. -/
def process_message_body (a : Agent)
    (handler : AgentMessage → AgentState → Except String AgentMessage × AgentState)
    (m : AgentMessage) (s : AgentState) :
    Except String (Option AgentMessage) × AgentState :=
  stepBind (validate_input_step a m s) (fun _ s1 =>
    stepBind (dispatch_step handler m (record_input_step a m s1)) (fun resp s3 =>
      stepBind (validate_output_step a resp s3) (fun _ s4 =>
        (Except.ok resp, record_output_step a resp s4))))

/-- BaseAgent.process_message: run the try-block; any exception is caught and
converted into the error response built by _create_error_response from the
original message and str of the exception. The caller always receives a value. -/
def process_message (a : Agent)
    (handler : AgentMessage → AgentState → Except String AgentMessage × AgentState)
    (m : AgentMessage) (s : AgentState) (now : Nat) :
    Option AgentMessage × AgentState :=
  match process_message_body a handler m s with
  | (Except.ok resp, s1) => (resp, s1)
  | (Except.error e, s1) => (some (create_error_response a.agent_id m e now), s1)

/-- BaseAgent.send_message: the outbound transport hook; it only logs in the
template. Modelled as appending to a trail of handed-off messages so that one
can state which messages the loop hands to the transport. -/
def send_message (sent : List AgentMessage) (m : AgentMessage) : List AgentMessage :=
  sent ++ [m]

/-- One iteration of BaseAgent._process_messages: an empty queue is the timeout
branch (state unchanged, loop continues); otherwise dequeue the head message
and run process_message on it. The source discards the return value of
process_message and calls send_message nowhere in the loop, so the list of
messages handed to the transport during the iteration is empty. -/
def process_messages_step (a : Agent)
    (handler : AgentMessage → AgentState → Except String AgentMessage × AgentState)
    (now : Nat) (s : AgentState) : AgentState × List AgentMessage :=
  match s.queue with
  | [] => (s, [])
  | m :: rest =>
    let s1 := (process_message a handler m { s with queue := rest } now).2
    (s1, [])

/-- Lifecycle state of one agent: the is_running flag and the number of
_process_messages loop tasks scheduled so far via asyncio.create_task. -/
structure LifecycleState where
  is_running : Bool
  loop_tasks : Nat
deriving DecidableEq, Repr

/-- BaseAgent.start: set is_running and unconditionally schedule one more
_process_messages task. -/
def start (s : LifecycleState) : LifecycleState :=
  { is_running := true, loop_tasks := s.loop_tasks + 1 }

/-- BaseAgent.stop: clear is_running; already-scheduled loop tasks are not
aborted. -/
def stop (s : LifecycleState) : LifecycleState :=
  { s with is_running := false }

/-- The result shape the spec promises for process_message: no message, or a
RESPONSE, or an ERROR. -/
def responseOrError : Option AgentMessage → Prop
  | none => True
  | some r => r.message_type = MessageType.response ∨ r.message_type = MessageType.error

/-- A concrete content dict with an unrecognized request sub-type. -/
def sampleContent : List (String × Value) :=
  [("type", Value.vStr "bogus")]

/-- A concrete REQUEST message used to instantiate theorems. -/
def sampleMessage : AgentMessage :=
  { sender_id := "user-001"
  , receiver_id := "agent-001"
  , message_type := MessageType.request
  , content := sampleContent
  , timestamp := 0
  , correlation_id := "corr-1"
  , priority := Priority.medium }

/-- A concrete configuration mirroring the example wiring of the source. -/
def sampleConfig : AgentConfig :=
  { agent_id := "agent-001"
  , name := "ResearchAgent"
  , description := "Agent for research and analysis"
  , tools := []
  , safety_enabled := true
  , memory_enabled := true
  , max_retries := 3 }

/-- The agent built from the sample configuration. -/
def sampleAgent : Agent := mkAgent sampleConfig

/-- The empty agent state. -/
def emptyState : AgentState :=
  { memory_log := [], queue := [], tool_calls := [] }

/-- An injected safety gate that rejects every input, the test scenario of the
spec for input rejection. -/
def rejectingGate : SafetyWrapper :=
  { validate_input := fun _ => false, validate_output := fun _ => true }

/-- The sample agent with the rejecting gate installed at the safety seam. -/
def rejectingAgent : Agent :=
  { sampleAgent with safety_wrapper := some rejectingGate }

/-- The initial lifecycle state of a freshly constructed agent. -/
def initialLifecycle : LifecycleState :=
  { is_running := false, loop_tasks := 0 }

/-- A request handler that always raises, used to instantiate theorems about
pipeline failures with a concrete failing collaborator. -/
def boomHandler : AgentMessage → AgentState → Except String AgentMessage × AgentState :=
  fun _ s => (Except.error "boom", s)

/-- The empty state with one sample message queued, used to instantiate
theorems about the dispatch loop. -/
def queuedState : AgentState :=
  { emptyState with queue := [sampleMessage] }

/-- Sequencing a successful step runs the continuation on its state. -/
theorem stepBind_ok {α β : Type} (v : α) (s : AgentState)
    (f : α → AgentState → Except String β × AgentState) :
    stepBind (Except.ok v, s) f = f v s := rfl

/-- Sequencing a failing step short-circuits and keeps its state. -/
theorem stepBind_error {α β : Type} (e : String) (s : AgentState)
    (f : α → AgentState → Except String β × AgentState) :
    stepBind (Except.error e, s) f = (Except.error e, s) := rfl

/-- Any response the dispatch step succeeds with is either absent or comes
from the request handler; with a handler that only produces RESPONSE messages,
the result satisfies responseOrError. -/
theorem dispatch_step_ok_kind
    (handler : AgentMessage → AgentState → Except String AgentMessage × AgentState)
    (m : AgentMessage) (s : AgentState) (resp : Option AgentMessage) (s1 : AgentState)
    (hh : ∀ m1 s2 r s3, handler m1 s2 = (Except.ok r, s3) →
      r.message_type = MessageType.response)
    (hd : dispatch_step handler m s = (Except.ok resp, s1)) :
    responseOrError resp := by
  unfold dispatch_step at hd
  cases htype : m.message_type <;> rw [htype] at hd
  case request =>
    cases hcall : handler m s with
    | mk res s2 =>
      cases res with
      | ok r =>
        rw [hcall] at hd
        simp only [Prod.mk.injEq, Except.ok.injEq] at hd
        obtain ⟨h1, _⟩ := hd
        subst h1
        exact Or.inl (hh m s r s2 hcall)
      | error e =>
        rw [hcall] at hd
        simp at hd
  all_goals
    simp only [Prod.mk.injEq, Except.ok.injEq] at hd
    obtain ⟨h1, _⟩ := hd
    subst h1
    trivial

/-- Any response the pipeline body succeeds with satisfies responseOrError,
provided the request handler only produces RESPONSE messages. -/
theorem process_message_body_ok_kind (a : Agent)
    (handler : AgentMessage → AgentState → Except String AgentMessage × AgentState)
    (m : AgentMessage) (s : AgentState) (resp : Option AgentMessage) (s1 : AgentState)
    (hh : ∀ m1 s2 r s3, handler m1 s2 = (Except.ok r, s3) →
      r.message_type = MessageType.response)
    (hb : process_message_body a handler m s = (Except.ok resp, s1)) :
    responseOrError resp := by
  unfold process_message_body at hb
  cases hvv : validate_input_step a m s with
  | mk rv sv =>
    rw [hvv] at hb
    cases rv with
    | error e =>
      rw [stepBind_error] at hb
      simp at hb
    | ok u =>
      rw [stepBind_ok] at hb
      cases hdd : dispatch_step handler m (record_input_step a m sv) with
      | mk rd sd =>
        rw [hdd] at hb
        cases rd with
        | error e =>
          rw [stepBind_error] at hb
          simp at hb
        | ok resp2 =>
          rw [stepBind_ok] at hb
          cases hoo : validate_output_step a resp2 sd with
          | mk ro so =>
            rw [hoo] at hb
            cases ro with
            | error e =>
              rw [stepBind_error] at hb
              simp at hb
            | ok u2 =>
              rw [stepBind_ok] at hb
              simp only [Prod.mk.injEq, Except.ok.injEq] at hb
              obtain ⟨h1, _⟩ := hb
              subst h1
              exact dispatch_step_ok_kind handler m _ _ sd hh hdd

/-- With a request handler that only produces RESPONSE messages or fails, the
pipeline result is no message, a RESPONSE, or an ERROR. -/
theorem process_message_kind (a : Agent)
    (handler : AgentMessage → AgentState → Except String AgentMessage × AgentState)
    (m : AgentMessage) (s : AgentState) (now : Nat)
    (hh : ∀ m1 s2 r s3, handler m1 s2 = (Except.ok r, s3) →
      r.message_type = MessageType.response) :
    responseOrError (process_message a handler m s now).1 := by
  unfold process_message
  cases hb : process_message_body a handler m s with
  | mk res s1 =>
    cases res with
    | ok resp =>
      exact process_message_body_ok_kind a handler m s resp s1 hh hb
    | error e =>
      exact Or.inr rfl

/-- The concrete handler of SpecializedAgent only ever succeeds with a
RESPONSE message. -/
theorem specialized_request_kind (a : Agent) (now : Nat) (m : AgentMessage) (s : AgentState)
    (r : AgentMessage) (s1 : AgentState)
    (h : specialized_handle_request a now m s = (Except.ok r, s1)) :
    r.message_type = MessageType.response := by
  unfold specialized_handle_request at h
  cases hres : specialized_request_result a m s with
  | mk rr s2 =>
    rw [hres] at h
    cases rr with
    | ok result =>
      simp only [Prod.mk.injEq, Except.ok.injEq] at h
      obtain ⟨h1, _⟩ := h
      rw [← h1]
    | error e =>
      simp at h

/-- Claim C1: for every message m, process_message returns either none, a
message of kind RESPONSE, or a message of kind ERROR, never a REQUEST or a
NOTIFICATION; this holds both for the abstract base request handler, which
always raises NotImplementedError, and for the concrete handler of
SpecializedAgent. -/
theorem process_result_kind_closed (a : Agent) (m : AgentMessage) (s : AgentState) (now : Nat) :
    responseOrError (process_message a (specialized_handle_request a now) m s now).1
    ∧ responseOrError (process_message a base_handle_request m s now).1 := by
  constructor
  · exact process_message_kind a _ m s now
      (fun m1 s2 r s3 h => specialized_request_kind a now m1 s2 r s3 h)
  · exact process_message_kind a _ m s now
      (fun m1 s2 r s3 h => by simp [base_handle_request] at h)

/-- Claim C2: the error responder yields a message of kind ERROR whose sender
is the agent id, whose receiver is the sender of the original message, whose
content is the dict with the reason under the key error and the original
correlation id under the key original_message_id, and whose correlation id is
the correlation id of the original message. -/
theorem create_error_response_fields (aid : String) (m : AgentMessage) (r : String) (now : Nat) :
    (create_error_response aid m r now).message_type = MessageType.error
    ∧ (create_error_response aid m r now).sender_id = aid
    ∧ (create_error_response aid m r now).receiver_id = m.sender_id
    ∧ (create_error_response aid m r now).content =
        [("error", Value.vStr r), ("original_message_id", Value.vStr m.correlation_id)]
    ∧ (create_error_response aid m r now).correlation_id = m.correlation_id :=
  ⟨rfl, rfl, rfl, rfl, rfl⟩

/-- Claim C3: when the installed safety gate rejects the input, the pipeline
returns the error response built with the text Message failed safety
validation and the state is returned untouched, so no memory entry is written
and no tool execution is recorded for that call. -/
theorem safety_reject_short_circuits (a : Agent) (w : SafetyWrapper)
    (handler : AgentMessage → AgentState → Except String AgentMessage × AgentState)
    (m : AgentMessage) (s : AgentState) (now : Nat)
    (hw : a.safety_wrapper = some w) (hr : w.validate_input m = false) :
    process_message a handler m s now =
      (some (create_error_response a.agent_id m "Message failed safety validation" now), s)
    ∧ (process_message a handler m s now).2.memory_log = s.memory_log
    ∧ (process_message a handler m s now).2.tool_calls = s.tool_calls := by
  have hv : validate_input_step a m s =
      (Except.error "Message failed safety validation", s) := by
    unfold validate_input_step
    rw [hw]
    simp [hr]
  have hbody : process_message_body a handler m s =
      (Except.error "Message failed safety validation", s) := by
    unfold process_message_body
    rw [hv, stepBind_error]
  have h1 : process_message a handler m s now =
      (some (create_error_response a.agent_id m "Message failed safety validation" now), s) := by
    unfold process_message
    rw [hbody]
  exact ⟨h1, by rw [h1], by rw [h1]⟩

/-- Witness for claim C3 at a concrete rejecting gate and message. -/
theorem safety_reject_short_circuits_witness :
    process_message rejectingAgent base_handle_request sampleMessage emptyState 0 =
      (some (create_error_response rejectingAgent.agent_id sampleMessage
        "Message failed safety validation" 0), emptyState) :=
  (safety_reject_short_circuits rejectingAgent rejectingGate base_handle_request sampleMessage
    emptyState 0 rfl rfl).1

/-- Claim C4: use_tool with a name absent from the registry fails with the
ValueError text Tool name not found and returns the state untouched, so the
memory log and the queue are unchanged. -/
theorem use_tool_unregistered_fails (a : Agent) (tool_name : String)
    (kwargs : List (String × Value)) (s : AgentState)
    (h : lookupTool a.tools tool_name = none) :
    use_tool a tool_name kwargs s = (Except.error ("Tool " ++ tool_name ++ " not found"), s)
    ∧ (use_tool a tool_name kwargs s).2.memory_log = s.memory_log
    ∧ (use_tool a tool_name kwargs s).2.queue = s.queue := by
  have h1 : use_tool a tool_name kwargs s =
      (Except.error ("Tool " ++ tool_name ++ " not found"), s) := by
    unfold use_tool
    rw [h]
  exact ⟨h1, by rw [h1], by rw [h1]⟩

/-- Witness for claim C4 at a concrete agent with an empty registry. -/
theorem use_tool_unregistered_fails_witness :
    use_tool sampleAgent "missing" [] emptyState =
      (Except.error ("Tool " ++ "missing" ++ " not found"), emptyState) :=
  (use_tool_unregistered_fails sampleAgent "missing" [] emptyState rfl).1

/-- Claim C5: a REQUEST whose content type is neither analyze nor search makes
the concrete handler succeed, not fail, with a RESPONSE message whose content
is the dict holding the text Unknown request type followed by the
stringification of the unrecognized type value under the key error, carrying
the original correlation id, and leaving the state untouched. -/
theorem unknown_request_type_structured_error (a : Agent) (now : Nat) (m : AgentMessage)
    (s : AgentState)
    (h1 : valueEqStr (dictGet m.content "type") "analyze" = false)
    (h2 : valueEqStr (dictGet m.content "type") "search" = false) :
    specialized_handle_request a now m s =
      (Except.ok
        { sender_id := a.agent_id
        , receiver_id := m.sender_id
        , message_type := MessageType.response
        , content := [("error",
            Value.vStr ("Unknown request type: " ++ pyStr (dictGet m.content "type")))]
        , timestamp := now
        , correlation_id := m.correlation_id
        , priority := Priority.medium }, s) := by
  unfold specialized_handle_request specialized_request_result
  simp [h1, h2]

/-- Witness for claim C5 at a concrete message with the unrecognized type
bogus. -/
theorem unknown_request_type_structured_error_witness :
    specialized_handle_request sampleAgent 0 sampleMessage emptyState =
      (Except.ok
        { sender_id := sampleAgent.agent_id
        , receiver_id := sampleMessage.sender_id
        , message_type := MessageType.response
        , content := [("error",
            Value.vStr ("Unknown request type: " ++ pyStr (dictGet sampleMessage.content "type")))]
        , timestamp := 0
        , correlation_id := sampleMessage.correlation_id
        , priority := Priority.medium }, emptyState) :=
  unknown_request_type_structured_error sampleAgent 0 sampleMessage emptyState rfl rfl

/-- Claim C6 (code bug): start is not idempotent in the source; every call
unconditionally schedules one more processing-loop task, so two consecutive
start calls on a fresh agent leave two concurrently scheduled loops where the
claim requires at most one. -/
theorem start_spawns_new_loop_each_time :
    (start (start initialLifecycle)).loop_tasks = 2
    ∧ (start initialLifecycle).is_running = true
    ∧ (start (start initialLifecycle)).loop_tasks ≠ 1 :=
  ⟨rfl, rfl, by decide⟩

/-- Claim C7 counterexample: at a concrete consumed message the pipeline
produces a response, yet the loop iteration hands no message to the
caller or transport: the return value of process_message is discarded and
send_message is never invoked by the loop. -/
theorem loop_result_not_delivered_cex :
    (process_message sampleAgent (specialized_handle_request sampleAgent 0) sampleMessage
      emptyState 0).1.isSome = true
    ∧ (process_messages_step sampleAgent (specialized_handle_request sampleAgent 0) 0
      queuedState).2 = [] :=
  ⟨rfl, rfl⟩

/-- Claim C7 amended: for every message consumed from the queue, the loop
iteration runs the dispatch pipeline to completion and discards its result;
the state is exactly the pipeline state and the list of messages handed to the
caller or transport is empty. -/
theorem loop_runs_pipeline_and_discards_result (a : Agent)
    (handler : AgentMessage → AgentState → Except String AgentMessage × AgentState)
    (now : Nat) (s : AgentState) (m : AgentMessage) (rest : List AgentMessage)
    (h : s.queue = m :: rest) :
    process_messages_step a handler now s =
      ((process_message a handler m { s with queue := rest } now).2, []) := by
  unfold process_messages_step
  rw [h]

/-- Witness for the amended claim C7 at a concrete queued message. -/
theorem loop_runs_pipeline_and_discards_result_witness :
    process_messages_step sampleAgent base_handle_request 0 queuedState =
      ((process_message sampleAgent base_handle_request sampleMessage
        { queuedState with queue := [] } 0).2, []) :=
  loop_runs_pipeline_and_discards_result sampleAgent base_handle_request 0 queuedState
    sampleMessage [] rfl

/-- Claim C8 counterexample: two calls of the error responder with the same
original message and the same reason are not always equal, because the
timestamp field records the clock reading at construction and differs between
calls made at different instants. -/
theorem create_error_response_timestamp_cex :
    create_error_response "agent-001" sampleMessage "fail" 0 ≠
      create_error_response "agent-001" sampleMessage "fail" 1 := by
  intro h
  have h2 := congrArg AgentMessage.timestamp h
  simp [create_error_response] at h2

/-- Claim C8 amended: the error responder is a pure function of the original
message, the reason and the construction clock reading; two calls with the
same original and reason agree on every field except the timestamp, which is
the clock reading, so two calls at the same instant are fully equal. -/
theorem create_error_response_deterministic (aid : String) (m : AgentMessage) (r : String)
    (t1 t2 : Nat) :
    create_error_response aid m r t1 =
      { create_error_response aid m r t2 with timestamp := t1 } :=
  rfl

/-- Claim C9: process_message is total at the public interface; whenever the
pipeline body fails with any exception text, the caller still receives a
value, namely the error response built from the original message and the
exception text, which is a message of kind ERROR carrying the original
correlation id and the exception text under the content key error. -/
theorem process_failure_returns_error_message (a : Agent)
    (handler : AgentMessage → AgentState → Except String AgentMessage × AgentState)
    (m : AgentMessage) (s : AgentState) (now : Nat) (e : String) (s1 : AgentState)
    (hb : process_message_body a handler m s = (Except.error e, s1)) :
    process_message a handler m s now =
      (some (create_error_response a.agent_id m e now), s1)
    ∧ (create_error_response a.agent_id m e now).message_type = MessageType.error
    ∧ (create_error_response a.agent_id m e now).correlation_id = m.correlation_id
    ∧ dictGet (create_error_response a.agent_id m e now).content "error" = Value.vStr e := by
  refine ⟨?_, rfl, rfl, rfl⟩
  unfold process_message
  rw [hb]

/-- Witness for claim C9 at a concrete handler that raises. -/
theorem process_failure_returns_error_message_witness :
    process_message sampleAgent boomHandler sampleMessage emptyState 0 =
      (some (create_error_response sampleAgent.agent_id sampleMessage "boom" 0),
        record_input_step sampleAgent sampleMessage emptyState) :=
  (process_failure_returns_error_message sampleAgent boomHandler sampleMessage emptyState 0
    "boom" (record_input_step sampleAgent sampleMessage emptyState) rfl).1

/-- Claim C10: a REQUEST processed with the base request handler, which raises
a bare NotImplementedError whose stringification is empty, yields an error
response whose content error field is the empty string, whose content
original_message_id field is the original correlation id, and whose
correlation id is the original correlation id. -/
theorem base_request_not_implemented (cfg : AgentConfig) (m : AgentMessage) (s : AgentState)
    (now : Nat) (h : m.message_type = MessageType.request) :
    (process_message (mkAgent cfg) base_handle_request m s now).1 =
      some (create_error_response cfg.agent_id m "" now)
    ∧ dictGet (create_error_response cfg.agent_id m "" now).content "error" = Value.vStr ""
    ∧ dictGet (create_error_response cfg.agent_id m "" now).content "original_message_id" =
        Value.vStr m.correlation_id
    ∧ (create_error_response cfg.agent_id m "" now).correlation_id = m.correlation_id := by
  refine ⟨?_, rfl, rfl, rfl⟩
  have hv : validate_input_step (mkAgent cfg) m s = (Except.ok (), s) := by
    cases hse : cfg.safety_enabled <;>
      simp [validate_input_step, mkAgent, hse, defaultSafetyWrapper]
  have hd : dispatch_step base_handle_request m (record_input_step (mkAgent cfg) m s) =
      (Except.error "", record_input_step (mkAgent cfg) m s) := by
    unfold dispatch_step
    rw [h]
    rfl
  have hbody : process_message_body (mkAgent cfg) base_handle_request m s =
      (Except.error "", record_input_step (mkAgent cfg) m s) := by
    unfold process_message_body
    rw [hv, stepBind_ok, hd, stepBind_error]
  unfold process_message
  rw [hbody]
  rfl

/-- Witness for claim C10 at a concrete configuration and REQUEST message. -/
theorem base_request_not_implemented_witness :
    (process_message (mkAgent sampleConfig) base_handle_request sampleMessage emptyState 0).1 =
      some (create_error_response sampleConfig.agent_id sampleMessage "" 0) :=
  (base_request_not_implemented sampleConfig sampleMessage emptyState 0 rfl).1

end AgentTemplate
